import Mathlib

/-!
Verification development for the Snowflake FastMCP server
(src/mcp_server_snowflake/server.py).  The Python tool functions are
shallowly embedded: the warehouse is abstracted as an executor
`String → Except String (List Row)` (a raised exception is `Except.error`),
and every tool returns the JSON object it would pass to `json.dumps`.
-/

/-- JSON values, the shape of the return payload of every tool. -/
inductive Json where
  | null : Json
  | bool : Bool → Json
  | num : Int → Json
  | str : String → Json
  | arr : List Json → Json
  | obj : List (String × Json) → Json
deriving BEq

/-- Values appearing in a warehouse result row: SQL NULL, strings,
integers, and datetime objects (carrying their ISO-8601 rendering). -/
inductive SValue where
  | null : SValue
  | s : String → SValue
  | i : Int → SValue
  | time : String → SValue
deriving BEq, DecidableEq

/-- A result row as the DictCursor returns it: an association list. -/
abbrev Row := List (String × SValue)

/-- Python `row.get(key)`: the stored value, or None (`SValue.null`) when
the key is absent. -/
def dictGetV (row : Row) (k : String) : SValue :=
  ((row.find? (fun kv => kv.1 == k)).map (fun kv => kv.2)).getD SValue.null

/-- Python truthiness of a row value: None, the empty string and 0 are
falsy; datetimes are truthy. -/
def truthyV : SValue → Bool
  | SValue.null => false
  | SValue.s v => !(v == "")
  | SValue.i n => !(n == 0)
  | SValue.time _ => true

/-- Serialization of a row value into the JSON payload. -/
def valueToJson : SValue → Json
  | SValue.null => Json.null
  | SValue.s v => Json.str v
  | SValue.i n => Json.num n
  | SValue.time t => Json.str t

/-- Python truthiness of an optional string argument (None and "" falsy). -/
def optTruthy : Option String → Bool
  | none => false
  | some s => !(s == "")

/-- A single-quote character, used when embedding SQL string literals. -/
def sQuote : String := "\x27"

/-- Whether `needle` occurs as a contiguous run inside the character list. -/
def isInfixOf (needle : List Char) : List Char → Bool
  | [] => needle.isEmpty
  | c :: t => needle.isPrefixOf (c :: t) || isInfixOf needle t

/-- Python `needle in hay` on strings: contiguous substring test. -/
def strContainsSub (hay needle : String) : Bool :=
  isInfixOf needle.data hay.data

/-- Python `str.upper()` (ASCII case mapping). -/
def pyUpper (s : String) : String := String.mk (s.data.map Char.toUpper)

/-- Python `s.rstrip(";")`: drop trailing semicolons. -/
def rstripSemicolons (s : String) : String :=
  String.mk ((s.data.reverse.dropWhile (fun c => c == ';')).reverse)

/-- Embedded from server.py lines 148-151: `execute_query` appends a
" LIMIT n" suffix (after stripping trailing semicolons) only when the
limit is truthy (not None and nonzero) and the upper-cased query does not
already contain the substring "LIMIT". -/
def applyLimit (query : String) : Option Int → String
  | none => query
  | some n =>
      if n != 0 && !(strContainsSub (pyUpper query) "LIMIT") then
        rstripSemicolons query ++ " LIMIT " ++ toString n
      else query

/-- The `success:false` envelope built in the except block of every tool
(server.py, e.g. lines 167-172): the exception message under "error". -/
def mkError (e : String) : Json :=
  Json.obj [("success", Json.bool false), ("error", Json.str e)]

/-- The try/except boundary of every tool: a body that raised
(`Except.error`) is converted into the failure envelope; a body that
completed returns its envelope unchanged. -/
def wrapTool (body : Except String Json) : Json :=
  match body with
  | Except.ok j => j
  | Except.error e => mkError e

/-- Python LIKE suffix (the pattern between single quotes), appended only
when the optional pattern argument is truthy (server.py lines 188-189,
231-232, 283-284). -/
def likeClause (pattern : Option String) : String :=
  match pattern with
  | some p => if p == "" then "" else " LIKE " ++ sQuote ++ p ++ sQuote
  | none => ""

/-- Embedded from server.py lines 156-159: values answering `isoformat`
(datetimes) are replaced by their ISO string before serialization. -/
def convertVal : SValue → SValue
  | SValue.time t => SValue.s t
  | v => v

/-- One result row of `execute_query` as serialized into the "data" array. -/
def rowJson (row : Row) : Json :=
  Json.obj (row.map (fun kv => (kv.1, valueToJson (convertVal kv.2))))

/-- Embedded from the `created_on` handling repeated in the listing tools
(e.g. server.py line 198): `row.get("created_on").isoformat() if
row.get("created_on") else None`.  A truthy value that is not a datetime
raises `AttributeError` (no `isoformat` method). -/
def createdOnJson (row : Row) : Except String Json :=
  let v := dictGetV row "created_on"
  if truthyV v then
    match v with
    | SValue.time t => Except.ok (Json.str t)
    | _ => Except.error "AttributeError: object has no attribute isoformat"
  else Except.ok Json.null

/-- Embedded from server.py lines 136-172: the `execute_query` tool. -/
def execute_query (ex : String → Except String (List Row))
    (query : String) (limit : Option Int) : Json :=
  wrapTool (
    match ex (applyLimit query limit) with
    | Except.error e => Except.error e
    | Except.ok results =>
        Except.ok (Json.obj
          [("success", Json.bool true),
           ("row_count", Json.num results.length),
           ("data", Json.arr (results.map rowJson))]))

/-- One database record of `list_databases` (server.py lines 193-201). -/
def dbRowJson (row : Row) : Except String Json :=
  match createdOnJson row with
  | Except.error e => Except.error e
  | Except.ok c =>
      Except.ok (Json.obj
        [("name", valueToJson (dictGetV row "name")),
         ("owner", valueToJson (dictGetV row "owner")),
         ("comment", valueToJson (dictGetV row "comment")),
         ("created_on", c)])

/-- Sequencing of a fallible projection over a list of rows, as a Python
list comprehension or accumulating loop does: the first raise aborts. -/
def exceptMapList (f : α → Except String β) : List α → Except String (List β)
  | [] => Except.ok []
  | a :: l =>
      match f a with
      | Except.error e => Except.error e
      | Except.ok b =>
          match exceptMapList f l with
          | Except.error e => Except.error e
          | Except.ok bs => Except.ok (b :: bs)

/-- Embedded from server.py lines 175-214: the `list_databases` tool. -/
def list_databases (ex : String → Except String (List Row))
    (pattern : Option String) : Json :=
  wrapTool (
    match ex ("SHOW DATABASES" ++ likeClause pattern) with
    | Except.error e => Except.error e
    | Except.ok results =>
        match exceptMapList dbRowJson results with
        | Except.error e => Except.error e
        | Except.ok dbs =>
            Except.ok (Json.obj
              [("success", Json.bool true),
               ("count", Json.num dbs.length),
               ("databases", Json.arr dbs)]))

/-- One schema record of `list_schemas` (server.py lines 236-245). -/
def schemaRowJson (row : Row) : Except String Json :=
  match createdOnJson row with
  | Except.error e => Except.error e
  | Except.ok c =>
      Except.ok (Json.obj
        [("name", valueToJson (dictGetV row "name")),
         ("database_name", valueToJson (dictGetV row "database_name")),
         ("owner", valueToJson (dictGetV row "owner")),
         ("comment", valueToJson (dictGetV row "comment")),
         ("created_on", c)])

/-- Embedded from server.py lines 217-259: the `list_schemas` tool. -/
def list_schemas (ex : String → Except String (List Row))
    (database_name : String) (pattern : Option String) : Json :=
  wrapTool (
    match ex ("SHOW SCHEMAS IN DATABASE " ++ database_name ++ likeClause pattern) with
    | Except.error e => Except.error e
    | Except.ok results =>
        match exceptMapList schemaRowJson results with
        | Except.error e => Except.error e
        | Except.ok schemas =>
            Except.ok (Json.obj
              [("success", Json.bool true),
               ("database", Json.str database_name),
               ("count", Json.num schemas.length),
               ("schemas", Json.arr schemas)]))

/-- The `SHOW TABLES IN SCHEMA` query text (server.py lines 282-284). -/
def showTablesQuery (database_name schema_name : String)
    (pattern : Option String) : String :=
  "SHOW TABLES IN SCHEMA " ++ database_name ++ "." ++ schema_name ++ likeClause pattern

/-- One table record appended by the `list_tables` loop
(server.py lines 294-303). -/
def tableRowJson (row : Row) : Except String Json :=
  match createdOnJson row with
  | Except.error e => Except.error e
  | Except.ok c =>
      Except.ok (Json.obj
        [("name", valueToJson (dictGetV row "name")),
         ("database_name", valueToJson (dictGetV row "database_name")),
         ("schema_name", valueToJson (dictGetV row "schema_name")),
         ("kind", valueToJson (dictGetV row "kind")),
         ("comment", valueToJson (dictGetV row "comment")),
         ("rows", valueToJson (dictGetV row "rows")),
         ("bytes", valueToJson (dictGetV row "bytes")),
         ("created_on", c)])

/-- Embedded from the row loop of `list_tables` (server.py lines 288-303):
rows whose kind is "VIEW" are skipped unless `include_views` is set. -/
def buildTables (include_views : Bool) : List Row → Except String (List Json)
  | [] => Except.ok []
  | r :: rest =>
      if !include_views && (dictGetV r "kind" == SValue.s "VIEW") then
        buildTables include_views rest
      else
        match tableRowJson r with
        | Except.error e => Except.error e
        | Except.ok j =>
            match buildTables include_views rest with
            | Except.error e => Except.error e
            | Except.ok tl => Except.ok (j :: tl)

/-- Embedded from server.py lines 262-318: the `list_tables` tool. -/
def list_tables (ex : String → Except String (List Row))
    (database_name schema_name : String) (pattern : Option String)
    (include_views : Bool) : Json :=
  wrapTool (
    match ex (showTablesQuery database_name schema_name pattern) with
    | Except.error e => Except.error e
    | Except.ok results =>
        match buildTables include_views results with
        | Except.error e => Except.error e
        | Except.ok tables =>
            Except.ok (Json.obj
              [("success", Json.bool true),
               ("database", Json.str database_name),
               ("schema", Json.str schema_name),
               ("count", Json.num tables.length),
               ("tables", Json.arr tables)]))

/-- One column record of `describe_table` (server.py lines 343-354). -/
def columnInfoJson (row : Row) : Json :=
  Json.obj
    [("name", valueToJson (dictGetV row "name")),
     ("type", valueToJson (dictGetV row "type")),
     ("nullable", Json.bool (dictGetV row "null?" == SValue.s "Y")),
     ("default", valueToJson (dictGetV row "default")),
     ("primary_key", Json.bool (dictGetV row "primary key" == SValue.s "Y")),
     ("unique_key", Json.bool (dictGetV row "unique key" == SValue.s "Y")),
     ("comment", valueToJson (dictGetV row "comment"))]

/-- The table metadata record of `describe_table`
(server.py lines 360-370): an empty dict when the SHOW returned no row. -/
def tableInfoOf (info : List Row) : Except String Json :=
  match info with
  | [] => Except.ok (Json.obj [])
  | row :: _ =>
      match createdOnJson row with
      | Except.error e => Except.error e
      | Except.ok c =>
          Except.ok (Json.obj
            [("kind", valueToJson (dictGetV row "kind")),
             ("comment", valueToJson (dictGetV row "comment")),
             ("rows", valueToJson (dictGetV row "rows")),
             ("bytes", valueToJson (dictGetV row "bytes")),
             ("created_on", c),
             ("owner", valueToJson (dictGetV row "owner"))])

/-- Embedded from server.py lines 321-386: the `describe_table` tool. -/
def describe_table (ex : String → Except String (List Row))
    (database_name schema_name table_name : String) : Json :=
  wrapTool (
    match ex ("DESCRIBE TABLE " ++ database_name ++ "." ++ schema_name ++ "." ++ table_name) with
    | Except.error e => Except.error e
    | Except.ok columns_result =>
        match ex ("SHOW TABLES LIKE " ++ sQuote ++ table_name ++ sQuote ++
                  " IN SCHEMA " ++ database_name ++ "." ++ schema_name) with
        | Except.error e => Except.error e
        | Except.ok info_result =>
            match tableInfoOf info_result with
            | Except.error e => Except.error e
            | Except.ok table_info =>
                Except.ok (Json.obj
                  [("success", Json.bool true),
                   ("database", Json.str database_name),
                   ("schema", Json.str schema_name),
                   ("table", Json.str table_name),
                   ("info", table_info),
                   ("columns", Json.arr (columns_result.map columnInfoJson))]))

/-- A column specification passed to `create_table`: a JSON object whose
keys name, type, nullable, default and comment may each be absent
(`none` models an absent key). -/
structure ColumnSpec where
  name : Option String
  type : Option String
  nullable : Option Bool
  default : Option String
  comment : Option String
deriving BEq

/-- Embedded from the column loop of `create_table` (server.py lines
416-429): `col[...]` on a missing name or type key raises `KeyError`;
`col.get("nullable", True)` being false appends " NOT NULL"; present
default and comment keys append their clauses. -/
def colDef (col : ColumnSpec) : Except String String :=
  match col.name with
  | none => Except.error "KeyError: name"
  | some n =>
      match col.type with
      | none => Except.error "KeyError: type"
      | some t =>
          let d := n ++ " " ++ t
          let d := if !(col.nullable.getD true) then d ++ " NOT NULL" else d
          let d := match col.default with
            | some v => d ++ " DEFAULT " ++ v
            | none => d
          let d := match col.comment with
            | some c => d ++ " COMMENT " ++ sQuote ++ c ++ sQuote
            | none => d
          Except.ok d

/-- The " DEFAULT ..." fragment a column definition carries when the
default key is present (server.py lines 423-424). -/
def defaultPart (col : ColumnSpec) : String :=
  match col.default with
  | some v => " DEFAULT " ++ v
  | none => ""

/-- The single-quoted COMMENT fragment a column definition carries when
the comment key is present (server.py lines 426-427). -/
def commentPart (col : ColumnSpec) : String :=
  match col.comment with
  | some c => " COMMENT " ++ sQuote ++ c ++ sQuote
  | none => ""

/-- The CREATE TABLE statement text (server.py lines 414-436). -/
def createTableQuery (database_name schema_name table_name : String)
    (defs : List String) (comment : Option String) (replace_if_exists : Bool) : String :=
  let head := if replace_if_exists then "CREATE OR REPLACE" else "CREATE"
  let q := head ++ " TABLE " ++ database_name ++ "." ++ schema_name ++ "." ++
    table_name ++ " (\n" ++
    String.intercalate ",\n" (defs.map (fun d => "    " ++ d)) ++ "\n)"
  match comment with
  | some c => if c == "" then q else q ++ " COMMENT = " ++ sQuote ++ c ++ sQuote
  | none => q

/-- Embedded from server.py lines 389-451: the `create_table` tool.  The
column definitions are built first; only then is the statement assembled
and executed. -/
def create_table (ex : String → Except String (List Row))
    (database_name schema_name table_name : String) (columns : List ColumnSpec)
    (comment : Option String) (replace_if_exists : Bool) : Json :=
  wrapTool (
    match exceptMapList colDef columns with
    | Except.error e => Except.error e
    | Except.ok defs =>
        let q := createTableQuery database_name schema_name table_name defs
          comment replace_if_exists
        match ex q with
        | Except.error e => Except.error e
        | Except.ok _ =>
            Except.ok (Json.obj
              [("success", Json.bool true),
               ("message", Json.str ("Table " ++ database_name ++ "." ++
                 schema_name ++ "." ++ table_name ++ " created successfully")),
               ("query", Json.str q)]))

/-- Embedded from server.py lines 454-490: the `drop_table` tool. -/
def drop_table (ex : String → Except String (List Row))
    (database_name schema_name table_name : String) (if_exists : Bool) : Json :=
  wrapTool (
    let q := "DROP TABLE " ++ (if if_exists then "IF EXISTS " else "") ++
      database_name ++ "." ++ schema_name ++ "." ++ table_name
    match ex q with
    | Except.error e => Except.error e
    | Except.ok _ =>
        Except.ok (Json.obj
          [("success", Json.bool true),
           ("message", Json.str ("Table " ++ database_name ++ "." ++
             schema_name ++ "." ++ table_name ++ " dropped successfully")),
           ("query", Json.str q)]))

/-- A value is a well-formed tool envelope: either a JSON object whose
first field is a true "success" flag, or exactly the failure envelope. -/
def isEnvelope (j : Json) : Prop :=
  (∃ rest, j = Json.obj (("success", Json.bool true) :: rest)) ∨
  (∃ e, j = mkError e)

/-- The SNOWFLAKE_* environment variables read at startup
(server.py lines 84-96); `none` models an unset variable. -/
structure SnowflakeEnv where
  account : Option String
  user : Option String
  password : Option String
  warehouse : Option String
  database : Option String
  schema : Option String
  role : Option String
deriving BEq

/-- A base parameter entry: kept whenever the variable is set, even when
it is the empty string (only `None` values are removed,
server.py line 103). -/
def entry (k : String) (v : Option String) : List (String × String) :=
  match v with
  | some s => [(k, s)]
  | none => []

/-- An optional parameter entry: added only when the value is truthy
(server.py lines 98-100), so unset and empty values are both dropped. -/
def optEntry (k : String) (v : Option String) : List (String × String) :=
  match v with
  | some s => if s == "" then [] else [(k, s)]
  | none => []

/-- Embedded from `SnowflakeConnection._get_connection_params`
(server.py lines 82-103): the base account/user/password entries followed
by the truthy optional entries, in insertion order. -/
def getConnectionParams (env : SnowflakeEnv) : List (String × String) :=
  entry "account" env.account ++ entry "user" env.user ++
  entry "password" env.password ++ optEntry "warehouse" env.warehouse ++
  optEntry "database" env.database ++ optEntry "schema" env.schema ++
  optEntry "role" env.role

/-- Python `params.pop(k, None)`: every entry under the key is removed. -/
def popKey (l : List (String × String)) (k : String) : List (String × String) :=
  l.filter (fun kv => !(kv.1 == k))

/-- Python `params.get(k)` on a string dict. -/
def dictGet (l : List (String × String)) (k : String) : Option String :=
  (l.find? (fun kv => kv.1 == k)).map (fun kv => kv.2)

/-- Embedded from the `get_connection_info` resource (server.py lines
497-511): a copy of the connection parameters with the password entry
popped, paired with the `configured` flag
`bool(params.get("account") and params.get("user"))`. -/
def get_connection_info (env : SnowflakeEnv) : List (String × String) × Bool :=
  let params := popKey (getConnectionParams env) "password"
  (params, optTruthy (dictGet params "account") && optTruthy (dictGet params "user"))

/-- Outcome of loading the server module: either the process is running
with a constructed connection manager, or it exited with a status code
and message. -/
inductive StartupResult where
  | started : List (String × String) → StartupResult
  | exited : Nat → String → StartupResult
deriving BEq

/-- Embedded from module initialization (server.py lines 79-80 and 129):
constructing the global `SnowflakeConnection` only computes the parameter
dict; no validation of required credentials is performed and no exit path
exists, so startup always reaches the running state. -/
def serverStartup (env : SnowflakeEnv) : StartupResult :=
  StartupResult.started (getConnectionParams env)

/-- Whether a startup outcome is a process exit. -/
def isExitResult : StartupResult → Bool
  | StartupResult.exited _ _ => true
  | StartupResult.started _ => false

/-- Embedded from the module-level `@mcp.tool()` decorations (server.py
lines 136-490): registration is unconditional and independent of the
environment. -/
def registeredTools (_env : SnowflakeEnv) : List String :=
  ["execute_query", "list_databases", "list_schemas", "list_tables",
   "describe_table", "create_table", "drop_table"]

/-- The environment with every SNOWFLAKE_* variable unset. -/
def emptyEnv : SnowflakeEnv :=
  { account := none, user := none, password := none, warehouse := none,
    database := none, schema := none, role := none }

/-- Lifecycle events of the vendor connection and its cursor. -/
inductive ConnEvent where
  | openConn : ConnEvent
  | openCursor : ConnEvent
  | closeCursor : ConnEvent
  | closeConn : ConnEvent
deriving BEq, DecidableEq

/-- Which primitive steps of one query execution fail, and the rows
fetched when none does. -/
structure DbEnv where
  connectFails : Bool
  cursorFails : Bool
  executeFails : Bool
  fetchFails : Bool
  rows : List Row

/-- Embedded from `SnowflakeConnection.get_connection` (server.py lines
105-114): `connect` then `conn.cursor(...)` inside a try whose except
clause only logs and re-raises.  When cursor creation raises after the
connection was opened, no close is emitted for it. -/
def SnowflakeConnection.get_connection (env : DbEnv) :
    List ConnEvent × Except String Unit :=
  if env.connectFails then ([], Except.error "connect failed")
  else if env.cursorFails then
    ([ConnEvent.openConn], Except.error "cursor creation failed")
  else ([ConnEvent.openConn, ConnEvent.openCursor], Except.ok ())

/-- Embedded from `SnowflakeConnection.execute_query` (server.py lines
116-125): acquire via `get_connection`, then execute and fetch inside a
try whose finally closes the cursor and the connection. -/
def SnowflakeConnection.execute_query (env : DbEnv) (_query : String) :
    List ConnEvent × Except String (List Row) :=
  match SnowflakeConnection.get_connection env with
  | (tr, Except.error e) => (tr, Except.error e)
  | (tr, Except.ok _) =>
      if env.executeFails then
        (tr ++ [ConnEvent.closeCursor, ConnEvent.closeConn], Except.error "execute failed")
      else if env.fetchFails then
        (tr ++ [ConnEvent.closeCursor, ConnEvent.closeConn], Except.error "fetch failed")
      else
        (tr ++ [ConnEvent.closeCursor, ConnEvent.closeConn], Except.ok env.rows)

/-- The allow/deny lists of SQL statement permissions from configuration. -/
structure SqlPermissions where
  allowed : List String
  disallowed : List String

/-- Modelled from the spec: the statement classifier of the permission
middleware, whose code is not under src (the package init file references
a fuller server with permission controls that is absent).  Per spec
section 4.4 it classifies the leading keyword of the statement
(SELECT, CREATE, DROP, SHOW, ...): the first space-separated token,
upper-cased. -/
def classifyStatement (q : String) : String :=
  pyUpper (String.mk ((q.data.dropWhile (fun c => c == ' ')).takeWhile
    (fun c => !(c == ' '))))

/-- Modelled from the spec: the authorization-error envelope the
middleware short-circuits with, a `success:false` envelope carrying a
message naming the denied statement type. -/
def authErrorEnvelope (stmtType : String) : Json :=
  Json.obj [("success", Json.bool false),
            ("error", Json.str ("Statement type not allowed: " ++ stmtType))]

/-- Modelled from the spec: the permission middleware, whose code is not
under src.  Per spec section 4.4: a statement whose type is in the
disallowed set is denied without executing anything; a type in the
allowed set, or any type when the allowed set is empty, invokes the
underlying tool; a type in neither set follows the observed-permissive
default and also invokes it. -/
def permissionGate (pol : SqlPermissions) (q : String)
    (invoke : Unit → Json) : Json :=
  let t := classifyStatement q
  if pol.disallowed.contains t then authErrorEnvelope t
  else if pol.allowed.isEmpty then invoke ()
  else if pol.allowed.contains t then invoke ()
  else invoke ()

/-- Sample SHOW TABLES row describing a permanent table. -/
def sampleTableRow : Row :=
  [("name", SValue.s "T1"), ("kind", SValue.s "TABLE")]

/-- Sample SHOW TABLES row describing a view. -/
def sampleViewRow : Row :=
  [("name", SValue.s "V1"), ("kind", SValue.s "VIEW")]

/-- The JSON record `list_tables` produces for `sampleTableRow`. -/
def sampleTableJson : Json :=
  Json.obj
    [("name", Json.str "T1"), ("database_name", Json.null),
     ("schema_name", Json.null), ("kind", Json.str "TABLE"),
     ("comment", Json.null), ("rows", Json.null), ("bytes", Json.null),
     ("created_on", Json.null)]

/-- A list filtered by a predicate satisfies that predicate everywhere. -/
theorem all_filter_self (f : α → Bool) (l : List α) :
    (l.filter f).all f = true := by
  induction l with
  | nil => rfl
  | cons a l ih =>
      by_cases h : f a = true
      · simp [List.filter_cons, h, ih]
      · simp only [Bool.not_eq_true] at h
        simp [List.filter_cons, h, ih]

/-- Popping a key distributes over concatenation of parameter lists. -/
theorem popKey_append (l1 l2 : List (String × String)) (k : String) :
    popKey (l1 ++ l2) k = popKey l1 k ++ popKey l2 k := by
  simp [popKey, List.filter_append]

/-- Popping "password" leaves an entry under a different key intact. -/
theorem popKey_entry_ne (k : String) (v : Option String)
    (h : (k == "password") = false) :
    popKey (entry k v) "password" = entry k v := by
  cases v <;> simp [popKey, entry, h]

/-- Popping "password" removes the password entry entirely. -/
theorem popKey_entry_pw (v : Option String) :
    popKey (entry "password" v) "password" = [] := by
  cases v <;> simp [popKey, entry]

/-- Popping "password" leaves an optional entry under another key intact. -/
theorem popKey_optEntry_ne (k : String) (v : Option String)
    (h : (k == "password") = false) :
    popKey (optEntry k v) "password" = optEntry k v := by
  cases v with
  | none => rfl
  | some s =>
      by_cases hs : (s == "") = true
      · simp [popKey, optEntry, hs]
      · simp only [Bool.not_eq_true] at hs
        simp [popKey, optEntry, hs, h]

/-- The `list_tables` loop with views excluded computes the projection of
the rows whose kind is not "VIEW". -/
theorem buildTables_false_eq (l : List Row) :
    buildTables false l =
      exceptMapList tableRowJson
        (l.filter (fun r => !(dictGetV r "kind" == SValue.s "VIEW"))) := by
  induction l with
  | nil => rfl
  | cons r rest ih =>
      by_cases h : (dictGetV r "kind" == SValue.s "VIEW") = true
      · simp [buildTables, List.filter_cons, h, ih]
      · simp only [Bool.not_eq_true] at h
        have hcons : List.filter (fun r => !(dictGetV r "kind" == SValue.s "VIEW")) (r :: rest)
            = r :: List.filter (fun r => !(dictGetV r "kind" == SValue.s "VIEW")) rest := by
          rw [List.filter_cons]; simp [h]
        rw [hcons]
        cases htr : tableRowJson r with
        | error e => simp [buildTables, exceptMapList, h, htr]
        | ok j =>
            cases hml : exceptMapList tableRowJson
                (List.filter (fun r => !(dictGetV r "kind" == SValue.s "VIEW")) rest) with
            | error e => simp [buildTables, exceptMapList, h, htr, ih, hml]
            | ok tl => simp [buildTables, exceptMapList, h, htr, ih, hml]

/-- A successful fallible projection preserves the list length. -/
theorem exceptMapList_length (f : α → Except String β) (l : List α)
    (bs : List β) (h : exceptMapList f l = Except.ok bs) :
    bs.length = l.length := by
  induction l generalizing bs with
  | nil =>
      simp [exceptMapList] at h
      simp [← h]
  | cons a t ih =>
      simp only [exceptMapList] at h
      cases hf : f a with
      | error e => rw [hf] at h; exact absurd h (by simp)
      | ok b =>
          rw [hf] at h
          cases ht : exceptMapList f t with
          | error e => rw [ht] at h; exact absurd h (by simp)
          | ok tl =>
              rw [ht] at h
              cases h
              simp [ih tl ht]

/-- A column list containing a spec missing its name or type key makes
the column-definition loop raise before producing any definitions. -/
theorem colDefs_error_of_malformed (cols : List ColumnSpec)
    (h : cols.any (fun c => c.name.isNone || c.type.isNone) = true) :
    ∃ e, exceptMapList colDef cols = Except.error e := by
  induction cols with
  | nil => simp at h
  | cons c rest ih =>
      cases hn : c.name with
      | none => exact ⟨"KeyError: name", by simp [exceptMapList, colDef, hn]⟩
      | some n =>
          cases ht : c.type with
          | none =>
              exact ⟨"KeyError: type", by simp [exceptMapList, colDef, hn, ht]⟩
          | some t =>
              have hrest : rest.any (fun c => c.name.isNone || c.type.isNone) = true := by
                simp only [List.any_cons, hn, ht, Option.isNone_some,
                  Bool.or_self, Bool.false_or] at h
                exact h
              obtain ⟨e, he⟩ := ih hrest
              refine ⟨e, ?_⟩
              simp [exceptMapList, colDef, hn, ht, he]

/-- Claim C4: for every query string already containing the substring
"LIMIT" under case-insensitive comparison, `execute_query` passes the
query text through unchanged and appends no further limit clause,
whatever the limit argument; the call behaves exactly as with no limit. -/
theorem limit_not_appended_when_present (q : String) (lim : Option Int)
    (ex : String → Except String (List Row))
    (h : strContainsSub (pyUpper q) "LIMIT" = true) :
    applyLimit q lim = q ∧ execute_query ex q lim = execute_query ex q none := by
  have hq : applyLimit q lim = q := by
    cases lim with
    | none => rfl
    | some n => simp [applyLimit, h]
  refine ⟨hq, ?_⟩
  unfold execute_query
  rw [hq]
  rfl

/-- Witness for C4 at a concrete query containing a LIMIT clause. -/
theorem limit_not_appended_when_present_witness :
    applyLimit "SELECT ID FROM T LIMIT 7" (some 3) = "SELECT ID FROM T LIMIT 7" ∧
    execute_query (fun _ => Except.ok ([] : List Row)) "SELECT ID FROM T LIMIT 7" (some 3) =
      execute_query (fun _ => Except.ok ([] : List Row)) "SELECT ID FROM T LIMIT 7" none :=
  limit_not_appended_when_present "SELECT ID FROM T LIMIT 7" (some 3)
    (fun _ => Except.ok ([] : List Row)) (by decide)

/-- Claim C10: a falsy limit argument (absent, None, or 0) leaves the
query text exactly as given, with no LIMIT clause appended; a positive
limit on a query without one appends " LIMIT n" after stripping trailing
semicolons. -/
theorem falsy_limit_ignored (q : String) (n : Int) :
    applyLimit q none = q ∧ applyLimit q (some 0) = q ∧
    (0 < n → strContainsSub (pyUpper q) "LIMIT" = false →
      applyLimit q (some n) = rstripSemicolons q ++ " LIMIT " ++ toString n) := by
  refine ⟨rfl, by simp [applyLimit], ?_⟩
  intro hn hq
  have hne : (n != 0) = true := by simp [bne_iff_ne]; omega
  simp [applyLimit, hq, hne]

/-- Witness for C10 at a query with trailing semicolons and limit 4. -/
theorem falsy_limit_ignored_witness :
    applyLimit "SELECT A FROM B;;" none = "SELECT A FROM B;;" ∧
    applyLimit "SELECT A FROM B;;" (some 0) = "SELECT A FROM B;;" ∧
    applyLimit "SELECT A FROM B;;" (some 4) = "SELECT A FROM B LIMIT 4" :=
  ⟨(falsy_limit_ignored "SELECT A FROM B;;" 4).1,
   (falsy_limit_ignored "SELECT A FROM B;;" 4).2.1,
   (falsy_limit_ignored "SELECT A FROM B;;" 4).2.2 (by decide) (by decide)⟩

/-- Claim C3 counterexample: with every credential variable unset, the
claimed startup failure does not happen; module initialization succeeds,
producing a running server whose parameter dict is simply empty. -/
theorem missing_credentials_no_exit :
    serverStartup emptyEnv = StartupResult.started [] ∧
    isExitResult (serverStartup emptyEnv) = false :=
  ⟨rfl, rfl⟩

/-- Claim C3 as amended: missing or empty required credentials never
terminate startup; `SnowflakeConnection` construction only collects the
set variables into the parameter dict, and all seven tools are registered
regardless of the environment. -/
theorem startup_never_exits (env : SnowflakeEnv) :
    isExitResult (serverStartup env) = false ∧
    serverStartup env = StartupResult.started (getConnectionParams env) ∧
    registeredTools env = registeredTools emptyEnv ∧
    (registeredTools env).length = 7 :=
  ⟨rfl, rfl, rfl, rfl⟩

/-- Claim C7 (code bug): when `conn.cursor(DictCursor)` raises after
`snowflake.connector.connect` succeeded, `get_connection` re-raises
before the try/finally of `SnowflakeConnection.execute_query` begins, so
the opened connection is never closed: the trace holds one open and no
close, contradicting the guaranteed-close claim. -/
theorem cursor_failure_leaks_connection :
    (SnowflakeConnection.execute_query
        { connectFails := false, cursorFails := true, executeFails := false,
          fetchFails := false, rows := [] } "SELECT 1").1.count ConnEvent.openConn = 1 ∧
    (SnowflakeConnection.execute_query
        { connectFails := false, cursorFails := true, executeFails := false,
          fetchFails := false, rows := [] } "SELECT 1").1.count ConnEvent.closeConn = 0 ∧
    (SnowflakeConnection.execute_query
        { connectFails := false, cursorFails := true, executeFails := false,
          fetchFails := false, rows := [] } "SELECT 1").2 =
      Except.error "cursor creation failed" :=
  ⟨rfl, rfl, rfl⟩

/-- Claim C5: for a column spec carrying its name and type, the generated
column definition carries the " NOT NULL" fragment exactly when the
nullable key is present with value false (an absent key defaults to
nullable), and the DEFAULT and COMMENT clauses are empty exactly when
those keys are absent. -/
theorem not_null_rendering (col : ColumnSpec) (n t : String)
    (h1 : col.name = some n) (h2 : col.type = some t) :
    (col.nullable = some false →
      colDef col = Except.ok (n ++ " " ++ t ++ " NOT NULL" ++ defaultPart col ++ commentPart col)) ∧
    (col.nullable ≠ some false →
      colDef col = Except.ok (n ++ " " ++ t ++ defaultPart col ++ commentPart col)) ∧
    (col.default = none → defaultPart col = "") ∧
    (col.comment = none → commentPart col = "") := by
  obtain ⟨nm, ty, nl, df, cm⟩ := col
  simp only [ColumnSpec.name] at h1
  simp only [ColumnSpec.type] at h2
  subst h1 h2
  refine ⟨?_, ?_, ?_, ?_⟩
  · intro hnl
    simp only [ColumnSpec.nullable] at hnl
    subst hnl
    cases df <;> cases cm <;>
      (simp [colDef, defaultPart, commentPart, String.append_assoc]; try rfl)
  · intro hnl
    simp only [ColumnSpec.nullable, ne_eq] at hnl
    have hb : nl.getD true = true := by
      cases nl with
      | none => rfl
      | some b => cases b with
        | false => exact absurd rfl hnl
        | true => rfl
    cases df <;> cases cm <;>
      (simp [colDef, defaultPart, commentPart, hb, String.append_assoc]; try rfl)
  · intro hdf
    simp only [ColumnSpec.default] at hdf
    subst hdf
    rfl
  · intro hcm
    simp only [ColumnSpec.comment] at hcm
    subst hcm
    rfl

/-- Witness for C5: a non-nullable INT column renders with NOT NULL and a
plain STRING column without it. -/
theorem not_null_rendering_witness :
    colDef { name := some "id", type := some "INT", nullable := some false,
             default := none, comment := none } = Except.ok "id INT NOT NULL" ∧
    colDef { name := some "note", type := some "STRING", nullable := none,
             default := none, comment := none } = Except.ok "note STRING" :=
  ⟨(not_null_rendering _ "id" "INT" rfl rfl).1 rfl,
   (not_null_rendering _ "note" "STRING" rfl rfl).2.1 (by simp)⟩

/-- Claim C8: a `create_table` call whose column list contains a spec
missing its name or type key returns the failure envelope produced by the
KeyError raised in the column loop (the ValidationError of the error
taxonomy of the spec), before any statement is assembled, and the executor is never
consulted: the result is one fixed failure envelope for every executor. -/
theorem malformed_column_fails_before_execution
    (database_name schema_name table_name : String) (cols : List ColumnSpec)
    (comment : Option String) (replace_if_exists : Bool)
    (h : cols.any (fun c => c.name.isNone || c.type.isNone) = true) :
    ∃ e, ∀ ex : String → Except String (List Row),
      create_table ex database_name schema_name table_name cols comment
        replace_if_exists = mkError e := by
  obtain ⟨e, he⟩ := colDefs_error_of_malformed cols h
  refine ⟨e, fun ex => ?_⟩
  simp [create_table, he, wrapTool]

/-- Witness for C8 at a single column spec missing its name key. -/
theorem malformed_column_fails_before_execution_witness :
    ∃ e, ∀ ex : String → Except String (List Row),
      create_table ex "D" "S" "T"
        [{ name := none, type := some "INT", nullable := none,
           default := none, comment := none }] none false = mkError e :=
  malformed_column_fails_before_execution "D" "S" "T"
    [{ name := none, type := some "INT", nullable := none,
       default := none, comment := none }] none false (by decide)

/-- Claim C2: a statement whose classified type lies in the disallowed
set makes the permission middleware return the authorization-error
envelope, and the underlying tool is never invoked: the outcome is the
same for every invocation closure. -/
theorem disallowed_statement_short_circuits (pol : SqlPermissions)
    (q : String) (inv inv2 : Unit → Json)
    (h : pol.disallowed.contains (classifyStatement q) = true) :
    permissionGate pol q inv = authErrorEnvelope (classifyStatement q) ∧
    permissionGate pol q inv = permissionGate pol q inv2 := by
  constructor <;> (simp only [permissionGate, h]; rfl)

/-- Witness for C2: DROP is denied by a policy disallowing DROP, for two
different underlying closures. -/
theorem disallowed_statement_short_circuits_witness :
    permissionGate { allowed := [], disallowed := ["DROP"] } "DROP TABLE T1"
        (fun _ => Json.null) = authErrorEnvelope (classifyStatement "DROP TABLE T1") ∧
    permissionGate { allowed := [], disallowed := ["DROP"] } "DROP TABLE T1"
        (fun _ => Json.null) =
      permissionGate { allowed := [], disallowed := ["DROP"] } "DROP TABLE T1"
        (fun _ => Json.bool true) :=
  disallowed_statement_short_circuits
    { allowed := [], disallowed := ["DROP"] } "DROP TABLE T1"
    (fun _ => Json.null) (fun _ => Json.bool true) (by decide)

/-- Claim C9: the connection-info resource never exposes the password:
no entry of the returned parameter dict has the password key, and the
whole returned value is identical for any two configurations differing
only in the password value. -/
theorem connection_info_redacts_password (env : SnowflakeEnv)
    (p1 p2 : Option String) :
    (get_connection_info env).1.all (fun kv => !(kv.1 == "password")) = true ∧
    get_connection_info { env with password := p1 } =
      get_connection_info { env with password := p2 } := by
  constructor
  · exact all_filter_self _ _
  · have hpop : ∀ p : Option String,
        popKey (getConnectionParams { env with password := p }) "password" =
          entry "account" env.account ++ entry "user" env.user ++
          optEntry "warehouse" env.warehouse ++ optEntry "database" env.database ++
          optEntry "schema" env.schema ++ optEntry "role" env.role := by
      intro p
      show popKey (entry "account" env.account ++ entry "user" env.user ++
        entry "password" p ++ optEntry "warehouse" env.warehouse ++
        optEntry "database" env.database ++ optEntry "schema" env.schema ++
        optEntry "role" env.role) "password" = _
      rw [popKey_append, popKey_append, popKey_append, popKey_append,
        popKey_append, popKey_append]
      rw [popKey_entry_ne "account" _ (by decide),
        popKey_entry_ne "user" _ (by decide), popKey_entry_pw,
        popKey_optEntry_ne "warehouse" _ (by decide),
        popKey_optEntry_ne "database" _ (by decide),
        popKey_optEntry_ne "schema" _ (by decide),
        popKey_optEntry_ne "role" _ (by decide)]
      simp
    show (let params := popKey (getConnectionParams { env with password := p1 }) "password"
      (params, optTruthy (dictGet params "account") && optTruthy (dictGet params "user"))) =
      (let params := popKey (getConnectionParams { env with password := p2 }) "password"
      (params, optTruthy (dictGet params "account") && optTruthy (dictGet params "user")))
    rw [hpop p1, hpop p2]

/-- Claim C1: every tool, on every input and every executor outcome
(including a raised exception), returns exactly one envelope whose first
field is a boolean "success": the success envelope of its body, or the
`success:false` envelope carrying the exception message; no exception
escapes the tool boundary (the tools are total functions). -/
theorem tool_envelope_total (ex : String → Except String (List Row))
    (q : String) (lim : Option Int) (pat : Option String)
    (db sch tbl : String) (cols : List ColumnSpec) (cmt : Option String)
    (rep ie ifx : Bool) :
    isEnvelope (execute_query ex q lim) ∧
    isEnvelope (list_databases ex pat) ∧
    isEnvelope (list_schemas ex db pat) ∧
    isEnvelope (list_tables ex db sch pat ie) ∧
    isEnvelope (describe_table ex db sch tbl) ∧
    isEnvelope (create_table ex db sch tbl cols cmt rep) ∧
    isEnvelope (drop_table ex db sch tbl ifx) := by
  refine ⟨?_, ?_, ?_, ?_, ?_, ?_, ?_⟩
  · unfold execute_query
    cases hx : ex (applyLimit q lim) with
    | error e => exact Or.inr ⟨e, rfl⟩
    | ok results => exact Or.inl ⟨_, rfl⟩
  · unfold list_databases
    cases hx : ex ("SHOW DATABASES" ++ likeClause pat) with
    | error e => exact Or.inr ⟨e, rfl⟩
    | ok results =>
        dsimp only
        cases hm : exceptMapList dbRowJson results with
        | error e => exact Or.inr ⟨e, rfl⟩
        | ok dbs => exact Or.inl ⟨_, rfl⟩
  · unfold list_schemas
    cases hx : ex ("SHOW SCHEMAS IN DATABASE " ++ db ++ likeClause pat) with
    | error e => exact Or.inr ⟨e, rfl⟩
    | ok results =>
        dsimp only
        cases hm : exceptMapList schemaRowJson results with
        | error e => exact Or.inr ⟨e, rfl⟩
        | ok schemas => exact Or.inl ⟨_, rfl⟩
  · unfold list_tables
    cases hx : ex (showTablesQuery db sch pat) with
    | error e => exact Or.inr ⟨e, rfl⟩
    | ok results =>
        dsimp only
        cases hm : buildTables ie results with
        | error e => exact Or.inr ⟨e, rfl⟩
        | ok tables => exact Or.inl ⟨_, rfl⟩
  · unfold describe_table
    cases hx : ex ("DESCRIBE TABLE " ++ db ++ "." ++ sch ++ "." ++ tbl) with
    | error e => exact Or.inr ⟨e, rfl⟩
    | ok columns_result =>
        dsimp only
        cases hx2 : ex ("SHOW TABLES LIKE " ++ sQuote ++ tbl ++ sQuote ++
            " IN SCHEMA " ++ db ++ "." ++ sch) with
        | error e => exact Or.inr ⟨e, rfl⟩
        | ok info_result =>
            dsimp only
            cases hi : tableInfoOf info_result with
            | error e => exact Or.inr ⟨e, rfl⟩
            | ok table_info => exact Or.inl ⟨_, rfl⟩
  · unfold create_table
    cases hm : exceptMapList colDef cols with
    | error e => exact Or.inr ⟨e, rfl⟩
    | ok defs =>
        dsimp only
        cases hx : ex (createTableQuery db sch tbl defs cmt rep) with
        | error e => exact Or.inr ⟨e, rfl⟩
        | ok res => exact Or.inl ⟨_, rfl⟩
  · unfold drop_table
    dsimp only
    cases hx : ex ("DROP TABLE " ++ (if ifx then "IF EXISTS " else "") ++
        db ++ "." ++ sch ++ "." ++ tbl) with
    | error e => exact Or.inr ⟨e, rfl⟩
    | ok res => exact Or.inl ⟨_, rfl⟩

/-- Claim C6: on any warehouse result set, `list_tables` with views
excluded returns a success envelope whose "tables" array is exactly the
projection of the rows whose kind is not "VIEW" and whose "count" equals
the length of that filtered list. -/
theorem list_tables_filters_views (ex : String → Except String (List Row))
    (db sch : String) (pat : Option String) (results : List Row)
    (tables : List Json)
    (h1 : ex (showTablesQuery db sch pat) = Except.ok results)
    (h2 : exceptMapList tableRowJson
        (results.filter (fun r => !(dictGetV r "kind" == SValue.s "VIEW"))) =
      Except.ok tables) :
    list_tables ex db sch pat false = Json.obj
      [("success", Json.bool true), ("database", Json.str db),
       ("schema", Json.str sch), ("count", Json.num tables.length),
       ("tables", Json.arr tables)] ∧
    tables.length =
      (results.filter (fun r => !(dictGetV r "kind" == SValue.s "VIEW"))).length := by
  constructor
  · unfold list_tables
    rw [h1]
    show wrapTool (match buildTables false results with
      | Except.error e => Except.error e
      | Except.ok tables => Except.ok (Json.obj
          [("success", Json.bool true), ("database", Json.str db),
           ("schema", Json.str sch), ("count", Json.num tables.length),
           ("tables", Json.arr tables)])) = _
    rw [buildTables_false_eq, h2]
    rfl
  · exact exceptMapList_length _ _ _ h2

/-- Witness for C6: a schema holding one table and one view yields a
single-element tables array holding only the table, with count 1. -/
theorem list_tables_filters_views_witness :
    list_tables (fun _ => Except.ok [sampleTableRow, sampleViewRow])
        "DB" "SCH" none false = Json.obj
      [("success", Json.bool true), ("database", Json.str "DB"),
       ("schema", Json.str "SCH"), ("count", Json.num 1),
       ("tables", Json.arr [sampleTableJson])] ∧
    ([sampleTableJson] : List Json).length =
      ([sampleTableRow, sampleViewRow].filter
        (fun r => !(dictGetV r "kind" == SValue.s "VIEW"))).length :=
  list_tables_filters_views (fun _ => Except.ok [sampleTableRow, sampleViewRow])
    "DB" "SCH" none [sampleTableRow, sampleViewRow] [sampleTableJson]
    rfl rfl
